import Mathlib

/-!
Verification development for the ControlBox core: a shallow embedding of
the Incident Classification Pipeline (classification engine) and of the
Session/Telemetry Registry kept by the WebSocket server, together with
theorems settling the specified properties.

The classification engine's collaborators (contact analyzer, severity
scorer, responsibility predictor, incident repository) are consumed
through interfaces; their behaviour is either universally quantified or,
where a property depends on their contract, modelled from the spec (each
such definition says so in its doc comment).
-/

namespace ControlBox

/-! ## Data model of the classification pipeline -/

/-- Trigger kinds. The engine's mapping switch carries a `default` branch,
so the input domain is open: `unrecognized tag` stands for any trigger
kind outside the six known ones. -/
inductive TriggerKind where
  | incident_count_increase
  | off_track_detected
  | spin_detected
  | sudden_deceleration
  | contact_proximity
  | erratic_trajectory
  | unrecognized (tag : String)
deriving DecidableEq

inductive IncidentType where
  | contact
  | off_track
  | spin
  | loss_of_control
deriving DecidableEq

inductive ContactType where
  | rear_end
  | side
  | divebomb
  | other
deriving DecidableEq

inductive Severity where
  | light
  | medium
  | heavy
deriving DecidableEq

inductive DriverRole where
  | cause
  | victim
  | involved
deriving DecidableEq

inductive IncidentStatus where
  | pending
  | under_review
  | resolved
  | dismissed
deriving DecidableEq

/-- Contextual payload of a trigger; the engine reads only `lapNumber`
and `trackPosition` from it (defaulting each to 0 when absent). -/
structure TriggerData where
  lapNumber : Option Int
  trackPosition : Option Int
deriving DecidableEq

structure IncidentTrigger where
  type : TriggerKind
  primaryDriverId : String
  nearbyDriverIds : List String
  sessionTimeMs : Int
  triggerData : TriggerData
deriving DecidableEq

structure InvolvedDriver where
  driverId : String
  driverName : String
  carNumber : String
  role : DriverRole
  faultProbability : Option Rat
deriving DecidableEq

structure IncidentEvent where
  id : String
  sessionId : String
  type : IncidentType
  contactType : Option ContactType
  severity : Severity
  severityScore : Int
  lapNumber : Int
  sessionTimeMs : Int
  trackPosition : Int
  involvedDrivers : List InvolvedDriver
  status : IncidentStatus
  replayTimestampMs : Int
  createdAt : Int
  updatedAt : Int
deriving DecidableEq

/-- One responsibility prediction, as consumed by the engine's loop over
`involvedDrivers`. -/
structure Prediction where
  driverId : String
  probability : Rat
  role : DriverRole
deriving DecidableEq

/-! ## The classification engine -/

/-- `ClassificationEngine.mapTriggerToIncidentType`. -/
def mapTriggerToIncidentType (trigger : IncidentTrigger) : IncidentType :=
  match trigger.type with
  | .incident_count_increase =>
      if trigger.nearbyDriverIds.length > 0 then .contact else .off_track
  | .off_track_detected => .off_track
  | .spin_detected => .spin
  | .sudden_deceleration =>
      if trigger.nearbyDriverIds.length > 0 then .contact else .loss_of_control
  | .contact_proximity => .contact
  | .erratic_trajectory => .loss_of_control
  | .unrecognized _ => .contact

/-- The involved-drivers list built by `processTrigger`: the primary
driver first, then one entry per nearby driver, in order. -/
def buildInvolvedDrivers (trigger : IncidentTrigger) : List InvolvedDriver :=
  { driverId := trigger.primaryDriverId
    driverName := "Driver " ++ trigger.primaryDriverId
    carNumber := "0"
    role := .involved
    faultProbability := none }
  :: trigger.nearbyDriverIds.map (fun id =>
      { driverId := id
        driverName := "Driver " ++ id
        carNumber := "0"
        role := .involved
        faultProbability := none })

/-- The engine's loop that copies each matching prediction's probability
and role onto the involved driver. -/
def applyPredictions (preds : List Prediction) (ds : List InvolvedDriver) :
    List InvolvedDriver :=
  ds.map fun d =>
    match preds.find? (fun p => p.driverId == d.driverId) with
    | some p => { d with faultProbability := some p.probability, role := p.role }
    | none => d

/-- Outcome of one `processTrigger` call: the value returned to the
caller (`none` is the JS `null`), the incidents emitted on the
`incident:classified` channel during the call, and how many times the
repository's `create` was invoked. -/
structure ProcOutcome where
  result : Option IncidentEvent
  emitted : List IncidentEvent
  createCalls : Nat
deriving DecidableEq

/-- The incident record assembled by `processTrigger` before persistence
(the `incident` local of the source), given the contact-analysis result
`ct`, the severity pair `sev` and the responsibility predictions
`preds`. -/
def mkIncidentRecord (genId : String) (now : Int)
    (trigger : IncidentTrigger) (sessionId : String)
    (ct : Option ContactType) (sev : Severity × Int)
    (preds : List Prediction) : IncidentEvent :=
  { id := genId
    sessionId := sessionId
    type := mapTriggerToIncidentType trigger
    contactType := ct
    severity := sev.1
    severityScore := sev.2
    lapNumber := trigger.triggerData.lapNumber.getD 0
    sessionTimeMs := trigger.sessionTimeMs
    trackPosition := trigger.triggerData.trackPosition.getD 0
    involvedDrivers :=
      if (buildInvolvedDrivers trigger).length > 1 then
        applyPredictions preds (buildInvolvedDrivers trigger)
      else buildInvolvedDrivers trigger
    status := .pending
    replayTimestampMs := trigger.sessionTimeMs
    createdAt := now
    updatedAt := now }

/-- `ClassificationEngine.processTrigger`. Collaborators are passed in as
fallible functions (`Except` models a thrown exception). The persistence
collaborator is modelled from the spec contract
`create(incidentEvent) → persistedEvent | Failure`, with the persisted
copy being the given record; `genId` stands for the generated uuid and
`now` for the wall-clock date used for `createdAt`/`updatedAt`. The
`try`/`catch` of the source is embedded by the cascade below: any stage
error short-circuits to a `none` result with nothing emitted. -/
def processTrigger
    (analyzeContact : IncidentTrigger → Except String ContactType)
    (calcSeverity : IncidentTrigger → Option ContactType → Except String (Severity × Int))
    (predict : IncidentTrigger → List InvolvedDriver → Except String (List Prediction))
    (create : IncidentEvent → Except String Unit)
    (genId : String) (now : Int)
    (trigger : IncidentTrigger) (sessionId : String) : ProcOutcome :=
  match (if mapTriggerToIncidentType trigger = .contact
      ∧ trigger.nearbyDriverIds.length > 0 then
      (analyzeContact trigger).map some
    else .ok none : Except String (Option ContactType)) with
  | .error _ => ⟨none, [], 0⟩
  | .ok contactType =>
    match calcSeverity trigger contactType with
    | .error _ => ⟨none, [], 0⟩
    | .ok sev =>
      match (if (buildInvolvedDrivers trigger).length > 1 then
          predict trigger (buildInvolvedDrivers trigger)
        else .ok [] : Except String (List Prediction)) with
      | .error _ => ⟨none, [], 0⟩
      | .ok preds =>
        match create (mkIncidentRecord genId now trigger sessionId contactType sev preds) with
        | .error _ => ⟨none, [], 1⟩
        | .ok _ =>
          ⟨some (mkIncidentRecord genId now trigger sessionId contactType sev preds),
            [mkIncidentRecord genId now trigger sessionId contactType sev preds], 1⟩

/-- The `try` block of `processTrigger` written as a computation in
`Except`: this is what the body does before the `catch` converts an
exception into a `null` return. -/
def processTriggerBody
    (analyzeContact : IncidentTrigger → Except String ContactType)
    (calcSeverity : IncidentTrigger → Option ContactType → Except String (Severity × Int))
    (predict : IncidentTrigger → List InvolvedDriver → Except String (List Prediction))
    (create : IncidentEvent → Except String Unit)
    (genId : String) (now : Int)
    (trigger : IncidentTrigger) (sessionId : String) : Except String IncidentEvent :=
  Except.bind
    (if mapTriggerToIncidentType trigger = .contact
        ∧ trigger.nearbyDriverIds.length > 0 then
      (analyzeContact trigger).map some
    else .ok none)
    (fun contactType =>
      Except.bind (calcSeverity trigger contactType) (fun sev =>
        Except.bind
          (if (buildInvolvedDrivers trigger).length > 1 then
            predict trigger (buildInvolvedDrivers trigger)
          else .ok [])
          (fun preds =>
            Except.bind
              (create (mkIncidentRecord genId now trigger sessionId contactType sev preds))
              (fun _ =>
                .ok (mkIncidentRecord genId now trigger sessionId contactType sev preds)))))

/-- Applying responsibility predictions changes roles and fault
probabilities only: the driver ids, and their order, are preserved. -/
theorem applyPredictions_map_driverId (preds : List Prediction)
    (ds : List InvolvedDriver) :
    (applyPredictions preds ds).map InvolvedDriver.driverId
      = ds.map InvolvedDriver.driverId := by
  induction ds with
  | nil => rfl
  | cons d ds ih =>
    simp only [applyPredictions, List.map_cons] at ih ⊢
    cases h : preds.find? (fun p => p.driverId == d.driverId) <;> simp [h, ih]

/-- Mapping `driverId` over the per-nearby-driver records recovers the
id list. -/
theorem map_driverId_mkInvolved (l : List String) :
    (l.map fun id =>
        ({ driverId := id, driverName := "Driver " ++ id, carNumber := "0",
           role := .involved, faultProbability := none } : InvolvedDriver)).map
      InvolvedDriver.driverId = l := by
  induction l <;> simp_all

/-- The involved-drivers list starts with the primary driver and
continues with the nearby drivers in order. -/
theorem buildInvolvedDrivers_map_driverId (t : IncidentTrigger) :
    (buildInvolvedDrivers t).map InvolvedDriver.driverId
      = t.primaryDriverId :: t.nearbyDriverIds := by
  simp only [buildInvolvedDrivers, List.map_cons]
  rw [map_driverId_mkInvolved]

end ControlBox

namespace ControlBox

/-- Exhaustive case analysis of one `processTrigger` call: either a
stage before persistence failed (`create` never called, nothing
emitted), or persistence itself failed (`create` called once, nothing
emitted), or everything succeeded and the assembled incident was
persisted, returned and emitted. -/
theorem processTrigger_outcome
    (analyze : IncidentTrigger → Except String ContactType)
    (calcSev : IncidentTrigger → Option ContactType → Except String (Severity × Int))
    (predict : IncidentTrigger → List InvolvedDriver → Except String (List Prediction))
    (create : IncidentEvent → Except String Unit)
    (genId : String) (now : Int) (trigger : IncidentTrigger) (sessionId : String) :
    processTrigger analyze calcSev predict create genId now trigger sessionId = ⟨none, [], 0⟩
    ∨ (∃ ct sev preds e,
        create (mkIncidentRecord genId now trigger sessionId ct sev preds) = Except.error e
        ∧ processTrigger analyze calcSev predict create genId now trigger sessionId
            = ⟨none, [], 1⟩)
    ∨ (∃ ct sev preds,
        (if mapTriggerToIncidentType trigger = .contact
            ∧ trigger.nearbyDriverIds.length > 0 then
          (analyze trigger).map some
        else .ok none : Except String (Option ContactType)) = .ok ct
        ∧ calcSev trigger ct = .ok sev
        ∧ create (mkIncidentRecord genId now trigger sessionId ct sev preds) = Except.ok ()
        ∧ processTrigger analyze calcSev predict create genId now trigger sessionId
            = ⟨some (mkIncidentRecord genId now trigger sessionId ct sev preds),
                [mkIncidentRecord genId now trigger sessionId ct sev preds], 1⟩) := by
  cases h1 : (if mapTriggerToIncidentType trigger = .contact
      ∧ trigger.nearbyDriverIds.length > 0 then
      (analyze trigger).map some
    else .ok none : Except String (Option ContactType)) with
  | error e =>
    left
    simp [processTrigger, h1]
  | ok ct =>
    cases h2 : calcSev trigger ct with
    | error e =>
      left
      simp [processTrigger, h1, h2]
    | ok sev =>
      cases h3 : (if (buildInvolvedDrivers trigger).length > 1 then
          predict trigger (buildInvolvedDrivers trigger)
        else .ok [] : Except String (List Prediction)) with
      | error e =>
        left
        simp [processTrigger, h1, h2, h3]
      | ok preds =>
        cases h4 : create (mkIncidentRecord genId now trigger sessionId ct sev preds) with
        | error e =>
          refine Or.inr (Or.inl ⟨ct, sev, preds, e, h4, ?_⟩)
          simp [processTrigger, h1, h2, h3, h4]
        | ok u =>
          cases u
          refine Or.inr (Or.inr ⟨ct, sev, preds, rfl, h2, h4, ?_⟩)
          simp [processTrigger, h1, h2, h3, h4]

/-- A successful `processTrigger` call returns exactly the assembled
incident record, for stage results the collaborators produced. -/
theorem processTrigger_result_eq
    (analyze : IncidentTrigger → Except String ContactType)
    (calcSev : IncidentTrigger → Option ContactType → Except String (Severity × Int))
    (predict : IncidentTrigger → List InvolvedDriver → Except String (List Prediction))
    (create : IncidentEvent → Except String Unit)
    (genId : String) (now : Int) (trigger : IncidentTrigger) (sessionId : String)
    (inc : IncidentEvent)
    (h : (processTrigger analyze calcSev predict create genId now trigger sessionId).result
          = some inc) :
    ∃ ct sev preds,
      (if mapTriggerToIncidentType trigger = .contact
          ∧ trigger.nearbyDriverIds.length > 0 then
        (analyze trigger).map some
      else .ok none : Except String (Option ContactType)) = .ok ct
      ∧ calcSev trigger ct = .ok sev
      ∧ inc = mkIncidentRecord genId now trigger sessionId ct sev preds := by
  rcases processTrigger_outcome analyze calcSev predict create genId now trigger sessionId with
    ho | ⟨ct, sev, preds, e, hcr, ho⟩ | ⟨ct, sev, preds, h1, h2, hok, ho⟩ <;>
    rw [ho] at h <;> simp at h
  exact ⟨ct, sev, preds, h1, h2, h.symm⟩

/-- CLAIM C1. Persistence is the commit point of the pipeline: `create`
is invoked at most once per trigger (no retry); when the call returns a
Failure (`none`), nothing was emitted; when it returns an incident, that
incident was successfully persisted and is exactly what was emitted; and
when the persistence collaborator cannot succeed, the call returns a
Failure and emits nothing. -/
theorem processTrigger_commit_point
    (analyze : IncidentTrigger → Except String ContactType)
    (calcSev : IncidentTrigger → Option ContactType → Except String (Severity × Int))
    (predict : IncidentTrigger → List InvolvedDriver → Except String (List Prediction))
    (create : IncidentEvent → Except String Unit)
    (genId : String) (now : Int) (trigger : IncidentTrigger) (sessionId : String) :
    (processTrigger analyze calcSev predict create genId now trigger sessionId).createCalls ≤ 1
    ∧ ((processTrigger analyze calcSev predict create genId now trigger sessionId).result = none →
        (processTrigger analyze calcSev predict create genId now trigger sessionId).emitted = [])
    ∧ (∀ inc,
        (processTrigger analyze calcSev predict create genId now trigger sessionId).result = some inc →
        create inc = Except.ok ()
        ∧ (processTrigger analyze calcSev predict create genId now trigger sessionId).emitted = [inc])
    ∧ ((∀ e, create e ≠ Except.ok ()) →
        (processTrigger analyze calcSev predict create genId now trigger sessionId).result = none
        ∧ (processTrigger analyze calcSev predict create genId now trigger sessionId).emitted = []) := by
  rcases processTrigger_outcome analyze calcSev predict create genId now trigger sessionId with
    ho | ⟨ct, sev, preds, e, hcr, ho⟩ | ⟨ct, sev, preds, h1, h2, hok, ho⟩ <;> rw [ho]
  · exact ⟨by simp, fun _ => rfl, by simp, fun _ => ⟨rfl, rfl⟩⟩
  · exact ⟨by simp, fun _ => rfl, by simp, fun _ => ⟨rfl, rfl⟩⟩
  · refine ⟨by simp, by simp, ?_, ?_⟩
    · intro inc0 he
      have he2 : mkIncidentRecord genId now trigger sessionId ct sev preds = inc0 := by
        simpa using he
      rw [← he2]
      exact ⟨hok, rfl⟩
    · intro hall
      exact absurd hok (hall _)

/-- CLAIM C10. `processTrigger` never propagates an exception: its result
is exactly the `try` body's value with every error caught and turned into
a `null` (`none`) result, and an incident is emitted exactly when the
body ran to completion. -/
theorem processTrigger_catches_all_errors
    (analyze : IncidentTrigger → Except String ContactType)
    (calcSev : IncidentTrigger → Option ContactType → Except String (Severity × Int))
    (predict : IncidentTrigger → List InvolvedDriver → Except String (List Prediction))
    (create : IncidentEvent → Except String Unit)
    (genId : String) (now : Int) (trigger : IncidentTrigger) (sessionId : String) :
    (processTrigger analyze calcSev predict create genId now trigger sessionId).result
      = (processTriggerBody analyze calcSev predict create genId now trigger sessionId).toOption
    ∧ (processTrigger analyze calcSev predict create genId now trigger sessionId).emitted
      = (processTriggerBody analyze calcSev predict create genId now trigger sessionId).toOption.toList := by
  cases h1 : (if mapTriggerToIncidentType trigger = .contact
      ∧ trigger.nearbyDriverIds.length > 0 then
      (analyze trigger).map some
    else .ok none : Except String (Option ContactType)) with
  | error e => simp [processTrigger, processTriggerBody, h1, Except.bind, Except.toOption]
  | ok ct =>
    cases h2 : calcSev trigger ct with
    | error e => simp [processTrigger, processTriggerBody, h1, h2, Except.bind, Except.toOption]
    | ok sev =>
      cases h3 : (if (buildInvolvedDrivers trigger).length > 1 then
          predict trigger (buildInvolvedDrivers trigger)
        else .ok [] : Except String (List Prediction)) with
      | error e => simp [processTrigger, processTriggerBody, h1, h2, h3, Except.bind, Except.toOption]
      | ok preds =>
        cases h4 : create (mkIncidentRecord genId now trigger sessionId ct sev preds) with
        | error e =>
          simp [processTrigger, processTriggerBody, h1, h2, h3, h4, Except.bind, Except.toOption]
        | ok u =>
          simp [processTrigger, processTriggerBody, h1, h2, h3, h4, Except.bind, Except.toOption]

/-- CLAIM C3. Every incident returned by `processTrigger` involves
exactly `1 + |nearbyDriverIds|` drivers; the first is the trigger's
primary driver and the rest are the nearby drivers in their original
order. -/
theorem processTrigger_involvedDrivers_shape
    (analyze : IncidentTrigger → Except String ContactType)
    (calcSev : IncidentTrigger → Option ContactType → Except String (Severity × Int))
    (predict : IncidentTrigger → List InvolvedDriver → Except String (List Prediction))
    (create : IncidentEvent → Except String Unit)
    (genId : String) (now : Int) (trigger : IncidentTrigger) (sessionId : String)
    (inc : IncidentEvent)
    (h : (processTrigger analyze calcSev predict create genId now trigger sessionId).result
          = some inc) :
    inc.involvedDrivers.length = 1 + trigger.nearbyDriverIds.length
    ∧ inc.involvedDrivers.map InvolvedDriver.driverId
        = trigger.primaryDriverId :: trigger.nearbyDriverIds := by
  rcases processTrigger_result_eq analyze calcSev predict create genId now trigger sessionId
    inc h with ⟨ct, sev, preds, h1, h2, hinc⟩
  have hmap : inc.involvedDrivers.map InvolvedDriver.driverId
      = trigger.primaryDriverId :: trigger.nearbyDriverIds := by
    rw [hinc]
    show (if (buildInvolvedDrivers trigger).length > 1 then
        applyPredictions preds (buildInvolvedDrivers trigger)
      else buildInvolvedDrivers trigger).map InvolvedDriver.driverId = _
    split
    · rw [applyPredictions_map_driverId, buildInvolvedDrivers_map_driverId]
    · rw [buildInvolvedDrivers_map_driverId]
  refine ⟨?_, hmap⟩
  have hlen := congrArg List.length hmap
  simp at hlen
  omega

/-- CLAIM C4. The trigger-to-incident-type mapping is a total
deterministic function: `off_track_detected ↦ off_track`,
`spin_detected ↦ spin`, `contact_proximity ↦ contact`,
`erratic_trajectory ↦ loss_of_control`; `incident_count_increase` maps to
`contact` when `nearbyDriverIds` is non-empty and to `off_track`
otherwise; `sudden_deceleration` maps to `contact` when `nearbyDriverIds`
is non-empty and to `loss_of_control` otherwise; every unrecognized
trigger kind maps to `contact`. -/
theorem mapTriggerToIncidentType_table
    (p : String) (nb : List String) (st : Int) (td : TriggerData) (tag : String) :
    mapTriggerToIncidentType ⟨.off_track_detected, p, nb, st, td⟩ = .off_track
    ∧ mapTriggerToIncidentType ⟨.spin_detected, p, nb, st, td⟩ = .spin
    ∧ mapTriggerToIncidentType ⟨.contact_proximity, p, nb, st, td⟩ = .contact
    ∧ mapTriggerToIncidentType ⟨.erratic_trajectory, p, nb, st, td⟩ = .loss_of_control
    ∧ mapTriggerToIncidentType ⟨.incident_count_increase, p, nb, st, td⟩
        = (if nb = [] then .off_track else .contact)
    ∧ mapTriggerToIncidentType ⟨.sudden_deceleration, p, nb, st, td⟩
        = (if nb = [] then .loss_of_control else .contact)
    ∧ mapTriggerToIncidentType ⟨.unrecognized tag, p, nb, st, td⟩ = .contact := by
  cases nb <;> simp [mapTriggerToIncidentType]

/-- CLAIM C2 (amended). The incident returned by `processTrigger` has a
`contactType` tag exactly when its type is `contact` AND the trigger had
at least one nearby driver: the engine guards the contact analyzer by
`incidentType === 'contact' && nearbyDriverIds.length > 0`, so a
`contact`-typed incident from an empty nearby list carries no tag. -/
theorem processTrigger_contactType_iff
    (analyze : IncidentTrigger → Except String ContactType)
    (calcSev : IncidentTrigger → Option ContactType → Except String (Severity × Int))
    (predict : IncidentTrigger → List InvolvedDriver → Except String (List Prediction))
    (create : IncidentEvent → Except String Unit)
    (genId : String) (now : Int) (trigger : IncidentTrigger) (sessionId : String)
    (inc : IncidentEvent)
    (h : (processTrigger analyze calcSev predict create genId now trigger sessionId).result
          = some inc) :
    (∃ c, inc.contactType = some c)
      ↔ (inc.type = .contact ∧ trigger.nearbyDriverIds ≠ []) := by
  rcases processTrigger_result_eq analyze calcSev predict create genId now trigger sessionId
    inc h with ⟨ct, sev, preds, h1, h2, hinc⟩
  subst hinc
  simp only [mkIncidentRecord]
  by_cases hc : mapTriggerToIncidentType trigger = IncidentType.contact
      ∧ trigger.nearbyDriverIds.length > 0
  · rw [if_pos hc] at h1
    cases ha : analyze trigger with
    | error e =>
      rw [ha] at h1
      simp [Except.map] at h1
    | ok ct0 =>
      rw [ha] at h1
      simp [Except.map] at h1
      constructor
      · intro _
        exact ⟨hc.1, List.length_pos.mp hc.2⟩
      · intro _
        exact ⟨ct0, h1.symm⟩
  · rw [if_neg hc] at h1
    simp at h1
    constructor
    · rintro ⟨c, hcc⟩
      rw [← h1] at hcc
      cases hcc
    · rintro ⟨htype, hne⟩
      exact absurd ⟨htype, List.length_pos.mpr hne⟩ hc

/-- Modelled from the spec: the SeverityScorer implementation is not
under src/ (only its caller in the classification engine and a
simplified linear example in the test file are present). The spec fixes
its contract: `calculateSeverity` returns a `(severity, score)` pair
whose score is clamped to the closed interval [0, 100] for every
possible raw input; the raw scoring formula itself and the banding of
the severity label are a pluggable policy. -/
def calculateSeverity (raw : Int) : Severity × Int :=
  let score := max 0 (min 100 raw)
  (if score ≥ 70 then .heavy else if score ≥ 40 then .medium else .light, score)

/-- A severity-scorer collaborator built from an arbitrary raw scoring
policy, clamped per the spec contract by `calculateSeverity`. -/
def scorerOf (rawPolicy : IncidentTrigger → Option ContactType → Int) :
    IncidentTrigger → Option ContactType → Except String (Severity × Int) :=
  fun t ct => .ok (calculateSeverity (rawPolicy t ct))

/-- CLAIM C8. For every trigger and every raw scoring policy, the
incident produced by `processTrigger` has an integer `severityScore` in
the closed interval [0, 100]: clamping, not failure, handles every
possible impact-derived signal, however implausible or negative. -/
theorem processTrigger_severityScore_range
    (analyze : IncidentTrigger → Except String ContactType)
    (rawPolicy : IncidentTrigger → Option ContactType → Int)
    (predict : IncidentTrigger → List InvolvedDriver → Except String (List Prediction))
    (create : IncidentEvent → Except String Unit)
    (genId : String) (now : Int) (trigger : IncidentTrigger) (sessionId : String)
    (inc : IncidentEvent)
    (h : (processTrigger analyze (scorerOf rawPolicy) predict create genId now
            trigger sessionId).result = some inc) :
    0 ≤ inc.severityScore ∧ inc.severityScore ≤ 100 := by
  rcases processTrigger_result_eq analyze (scorerOf rawPolicy) predict create genId now
    trigger sessionId inc h with ⟨ct, sev, preds, h1, h2, hinc⟩
  subst hinc
  have hsev : sev = calculateSeverity (rawPolicy trigger ct) := by
    have h2' := h2
    simp [scorerOf] at h2'
    exact h2'.symm
  subst hsev
  simp only [mkIncidentRecord, calculateSeverity]
  exact ⟨le_max_left _ _, max_le (by norm_num) (min_le_left _ _)⟩

end ControlBox

namespace ControlBox

/-! ## Concrete collaborators and triggers used to witness the pipeline
theorems -/

def cAnalyze : IncidentTrigger → Except String ContactType :=
  fun _ => .ok .rear_end

def cScore : IncidentTrigger → Option ContactType → Except String (Severity × Int) :=
  fun _ _ => .ok (.medium, 50)

def cPredict : IncidentTrigger → List InvolvedDriver → Except String (List Prediction) :=
  fun _ _ => .ok []

def cCreateOk : IncidentEvent → Except String Unit :=
  fun _ => .ok ()

def cCreateFail : IncidentEvent → Except String Unit :=
  fun _ => .error "db down"

/-- An `off_track_detected` trigger with no nearby drivers. -/
def trgOff : IncidentTrigger :=
  ⟨.off_track_detected, "D1", [], 1000, ⟨none, none⟩⟩

/-- A `contact_proximity` trigger with one nearby driver. -/
def trgContact : IncidentTrigger :=
  ⟨.contact_proximity, "D1", ["D2"], 2000, ⟨some 3, some 55⟩⟩

/-- A `contact_proximity` trigger with an empty nearby-driver list. -/
def trgProxEmpty : IncidentTrigger :=
  ⟨.contact_proximity, "D1", [], 1500, ⟨none, none⟩⟩

def demoIncOff : IncidentEvent :=
  mkIncidentRecord "I1" 7 trgOff "S1" none (.medium, 50) []

def demoIncContact : IncidentEvent :=
  mkIncidentRecord "I1" 7 trgContact "S1" (some .rear_end) (.medium, 50) []

def demoIncProx : IncidentEvent :=
  mkIncidentRecord "I1" 7 trgProxEmpty "S1" none (.medium, 50) []

def demoIncSev : IncidentEvent :=
  mkIncidentRecord "I1" 7 trgOff "S1" none (calculateSeverity 250) []

/-- Witness for CLAIM C1: with a failing persistence collaborator the
call returns a Failure and emits nothing; with a succeeding one, the
returned incident was persisted and emitted. -/
theorem processTrigger_commit_point_witness :
    (processTrigger cAnalyze cScore cPredict cCreateFail "I1" 7 trgOff "S1").result = none
    ∧ (processTrigger cAnalyze cScore cPredict cCreateFail "I1" 7 trgOff "S1").emitted = []
    ∧ cCreateOk demoIncOff = Except.ok ()
    ∧ (processTrigger cAnalyze cScore cPredict cCreateOk "I1" 7 trgOff "S1").emitted
        = [demoIncOff] := by
  have hfail :=
    (processTrigger_commit_point cAnalyze cScore cPredict cCreateFail "I1" 7 trgOff "S1").2.2.2
      (fun e hok => Except.noConfusion hok)
  have hok :=
    (processTrigger_commit_point cAnalyze cScore cPredict cCreateOk "I1" 7 trgOff "S1").2.2.1
      demoIncOff rfl
  exact ⟨hfail.1, hfail.2, hok.1, hok.2⟩

/-- Witness for CLAIM C2 (amended) at a successful concrete run. -/
theorem processTrigger_contactType_iff_witness :
    (∃ c, demoIncContact.contactType = some c)
      ↔ (demoIncContact.type = .contact ∧ trgContact.nearbyDriverIds ≠ []) :=
  processTrigger_contactType_iff cAnalyze cScore cPredict cCreateOk "I1" 7 trgContact "S1"
    demoIncContact rfl

/-- Counterexample to CLAIM C2 as stated: a `contact_proximity` trigger
with an empty `nearbyDriverIds` list yields an incident whose type is
`contact` but whose `contactType` is undefined. -/
theorem processTrigger_contactType_counterexample :
    (processTrigger cAnalyze cScore cPredict cCreateOk "I1" 7 trgProxEmpty "S1").result
      = some demoIncProx
    ∧ demoIncProx.type = IncidentType.contact
    ∧ demoIncProx.contactType = none :=
  ⟨rfl, rfl, rfl⟩

/-- Witness for CLAIM C3 at a concrete two-driver run. -/
theorem processTrigger_involvedDrivers_shape_witness :
    demoIncContact.involvedDrivers.length = 1 + trgContact.nearbyDriverIds.length
    ∧ demoIncContact.involvedDrivers.map InvolvedDriver.driverId
        = trgContact.primaryDriverId :: trgContact.nearbyDriverIds :=
  processTrigger_involvedDrivers_shape cAnalyze cScore cPredict cCreateOk "I1" 7 trgContact
    "S1" demoIncContact rfl

/-- Witness for CLAIM C8: a raw score of 250 is clamped into [0, 100]. -/
theorem processTrigger_severityScore_range_witness :
    0 ≤ demoIncSev.severityScore ∧ demoIncSev.severityScore ≤ 100 :=
  processTrigger_severityScore_range cAnalyze (fun _ _ => 250) cPredict cCreateOk "I1" 7
    trgOff "S1" demoIncSev rfl

end ControlBox

namespace ControlBox

/-! ## The session/telemetry registry

`activeSessions` is a JS `Map` from sessionId to a session record whose
`drivers` field is itself a `Map` from driverId to a stored snapshot.
Both are embedded as association lists with JS `Map.set` semantics:
setting an existing key replaces its value in place, setting a new key
appends it at the end. -/

/-- JS `Map.get`. -/
def mapGet {α : Type} : List (String × α) → String → Option α
  | [], _ => none
  | (k, v) :: rest, key => if k = key then some v else mapGet rest key

/-- JS `Map.set`: replace in place if present, append otherwise. -/
def mapSet {α : Type} : List (String × α) → String → α → List (String × α)
  | [], key, v => [(key, v)]
  | (k, w) :: rest, key, v =>
    if k = key then (key, v) :: rest else (k, w) :: mapSet rest key v

/-- The per-driver record kept in a session's `drivers` map (the
telemetry handler stores exactly these four fields). -/
structure StoredDriver where
  driverId : String
  driverName : String
  carNumber : String
  lapDistPct : Rat
deriving DecidableEq

/-- One entry of `activeSessions`. -/
structure SessionEntry where
  sessionId : String
  trackName : String
  sessionType : String
  drivers : List (String × StoredDriver)
  lastUpdate : Int
deriving DecidableEq

/-- The `activeSessions` map. -/
abbrev Registry := List (String × SessionEntry)

/-- One element of a telemetry frame's `drivers` array. -/
structure TelemetryDriver where
  driverId : String
  driverName : String
  carNumber : String
  position : Option Int
  lapNumber : Option Int
  lapDistPct : Rat
  speed : Option Rat
  lastLapTime : Option Rat
  bestLapTime : Option Rat
  gapToLeader : Option Rat
  incidentCount : Option Int
deriving DecidableEq

/-- One entry of the `timing:update` broadcast payload. -/
structure TimingEntry where
  driverId : String
  driverName : String
  carNumber : String
  position : Int
  lapNumber : Int
  lastLapTime : Option Rat
  bestLapTime : Option Rat
  gapToLeader : Option Rat
  lapDistPct : Rat
  speed : Option Rat
deriving DecidableEq

/-- One element of `getActiveSessions`'s summary list. -/
structure SessionSummary where
  sessionId : String
  trackName : String
  sessionType : String
  driverCount : Nat
  lastUpdate : Int
deriving DecidableEq

/-- Effect of the `session_metadata` handler on `activeSessions`: the
whole entry for the session is replaced, the `drivers` field with a
fresh empty map (`drivers: new Map()` in the source) and `lastUpdate`
with the current time. -/
def upsertMetadata (now : Int) (sessionId trackName sessionType : String)
    (reg : Registry) : Registry :=
  mapSet reg sessionId
    { sessionId := sessionId
      trackName := trackName
      sessionType := sessionType
      drivers := []
      lastUpdate := now }

/-- The timing entry projected from the driver at 0-based input index
`idx` (`position ?? idx + 1`, `lapNumber ?? 0`). -/
def mkTimingEntry (idx : Nat) (d : TelemetryDriver) : TimingEntry :=
  { driverId := d.driverId
    driverName := d.driverName
    carNumber := d.carNumber
    position := d.position.getD ((idx : Int) + 1)
    lapNumber := d.lapNumber.getD 0
    lastLapTime := d.lastLapTime
    bestLapTime := d.bestLapTime
    gapToLeader := d.gapToLeader
    lapDistPct := d.lapDistPct
    speed := d.speed }

/-- `data.drivers?.map((d, idx) => ...)` of the telemetry handler:
projection of the frame's drivers, in input order, starting at index
`idx`. -/
def timingAux (idx : Nat) : List TelemetryDriver → List TimingEntry
  | [] => []
  | d :: rest => mkTimingEntry idx d :: timingAux (idx + 1) rest

/-- The `timing.entries` payload broadcast by the telemetry handler
(`?? []` when the frame has no drivers array). -/
def timingEntries (drivers : Option (List TelemetryDriver)) : List TimingEntry :=
  timingAux 0 (drivers.getD [])

/-- The stored snapshot written for one frame driver. -/
def storeDriver (d : TelemetryDriver) : StoredDriver :=
  { driverId := d.driverId
    driverName := d.driverName
    carNumber := d.carNumber
    lapDistPct := d.lapDistPct }

/-- Effect of the `telemetry` handler on `activeSessions`: auto-create
the session with placeholder metadata if unseen, refresh `lastUpdate`,
write every named driver's snapshot (last write wins), and return the
projected timing view used for broadcast. -/
def applyTelemetry (now : Int) (sessionId : String)
    (drivers : Option (List TelemetryDriver)) (reg : Registry) :
    Registry × List TimingEntry :=
  let reg1 :=
    if (mapGet reg sessionId).isSome then reg
    else
      mapSet reg sessionId
        { sessionId := sessionId
          trackName := "Unknown Track"
          sessionType := "race"
          drivers := []
          lastUpdate := now }
  let entry :=
    (mapGet reg1 sessionId).getD
      { sessionId := sessionId
        trackName := "Unknown Track"
        sessionType := "race"
        drivers := []
        lastUpdate := now }
  let entry2 :=
    { entry with
        lastUpdate := now
        drivers :=
          (drivers.getD []).foldl
            (fun m d => mapSet m d.driverId (storeDriver d)) entry.drivers }
  (mapSet reg1 sessionId entry2, timingEntries drivers)

/-- The eviction sweep run on the 30-second interval timer: delete every
session whose `lastUpdate` lies strictly more than 60 000 ms before
`now`. -/
def evictStale (now : Int) (reg : Registry) : Registry :=
  reg.filter (fun kv => decide (now - kv.2.lastUpdate ≤ 60000))

/-- `getActiveSessions` (the `listActive` contract of the spec). -/
def getActiveSessions (reg : Registry) : List SessionSummary :=
  reg.map (fun kv =>
    { sessionId := kv.2.sessionId
      trackName := kv.2.trackName
      sessionType := kv.2.sessionType
      driverCount := kv.2.drivers.length
      lastUpdate := kv.2.lastUpdate })

/-! ## Association-map lemmas -/

theorem mapGet_mapSet_self {α : Type} (m : List (String × α)) (k : String) (v : α) :
    mapGet (mapSet m k v) k = some v := by
  induction m with
  | nil => simp [mapGet, mapSet]
  | cons kv rest ih =>
    by_cases hk : kv.1 = k
    · simp [mapSet, hk, mapGet]
    · simp [mapSet, hk, mapGet, ih]

theorem mem_mapSet_self {α : Type} (m : List (String × α)) (k : String) (v : α) :
    (k, v) ∈ mapSet m k v := by
  induction m with
  | nil => simp [mapSet]
  | cons kv rest ih =>
    by_cases hk : kv.1 = k
    · simp [mapSet, hk]
    · simp only [mapSet, hk, if_false]
      exact List.mem_cons_of_mem _ ih

theorem mapGet_eq_none_of_not_mem_keys {α : Type} (m : List (String × α)) (k : String)
    (h : k ∉ m.map Prod.fst) : mapGet m k = none := by
  induction m with
  | nil => rfl
  | cons kv rest ih =>
    simp only [List.map_cons, List.mem_cons] at h
    push_neg at h
    simp only [mapGet]
    rw [if_neg (Ne.symm h.1), ih h.2]

theorem mapGet_isSome_iff_mem_keys {α : Type} (m : List (String × α)) (k : String) :
    (mapGet m k).isSome ↔ k ∈ m.map Prod.fst := by
  induction m with
  | nil => simp [mapGet]
  | cons kv rest ih =>
    by_cases hk : kv.1 = k
    · simp [mapGet, hk]
    · simp only [mapGet, hk, if_false, List.map_cons, List.mem_cons]
      rw [ih]
      constructor
      · exact Or.inr
      · rintro (h | h)
        · exact absurd h.symm hk
        · exact h

theorem keys_mapSet_toFinset {α : Type} (m : List (String × α)) (k : String) (v : α) :
    ((mapSet m k v).map Prod.fst).toFinset = insert k (m.map Prod.fst).toFinset := by
  induction m with
  | nil => simp [mapSet]
  | cons kv rest ih =>
    by_cases hk : kv.1 = k
    · simp [mapSet, hk, List.toFinset_cons, Finset.insert_idem]
    · simp only [mapSet, hk, if_false, List.map_cons, List.toFinset_cons, ih]
      rw [Finset.Insert.comm]

theorem nodup_keys_mapSet {α : Type} (m : List (String × α)) (k : String) (v : α)
    (h : (m.map Prod.fst).Nodup) : ((mapSet m k v).map Prod.fst).Nodup := by
  induction m with
  | nil => simp [mapSet]
  | cons kv rest ih =>
    simp only [List.map_cons, List.nodup_cons] at h
    by_cases hk : kv.1 = k
    · simp only [mapSet, hk, if_true, List.map_cons, List.nodup_cons]
      exact ⟨hk ▸ h.1, h.2⟩
    · simp only [mapSet, hk, if_false, List.map_cons, List.nodup_cons]
      refine ⟨?_, ih h.2⟩
      intro hmem
      have := (List.mem_toFinset.mpr hmem)
      rw [keys_mapSet_toFinset] at this
      rcases Finset.mem_insert.mp this with h1 | h1
      · exact hk h1
      · exact h.1 (List.mem_toFinset.mp h1)

/-- Sweeping preserves keys: an evicted registry's keys come from the
original. -/
theorem keys_evictStale_subset (now : Int) (reg : Registry) :
    (evictStale now reg).map Prod.fst ⊆ reg.map Prod.fst :=
  List.map_subset _ (List.filter_sublist _).subset

end ControlBox

namespace ControlBox

/-- CLAIM C5. The eviction sweep removes exactly the sessions whose
`lastUpdate` lies strictly more than the 60-second TTL before `now`
(keys being unique, as they are in a JS `Map`): a session entry is found
after the sweep exactly when it was found before and is at most 60 000
ms stale. In particular an entry 61 s stale is removed, while entries
10 s stale or exactly at the 60 s boundary survive. -/
theorem evictStale_exact (now : Int) (reg : Registry) (sid : String) (s : SessionEntry)
    (hnd : (reg.map Prod.fst).Nodup) :
    mapGet (evictStale now reg) sid = some s
      ↔ (mapGet reg sid = some s ∧ ¬(now - s.lastUpdate > 60000)) := by
  induction reg with
  | nil => simp [evictStale, mapGet]
  | cons kv rest ih =>
    simp only [List.map_cons, List.nodup_cons] at hnd
    by_cases hv : now - kv.2.lastUpdate ≤ 60000
    · by_cases hk : kv.1 = sid
      · obtain ⟨k, v⟩ := kv
        simp only at hk hv
        subst hk
        simp only [evictStale, List.filter_cons, decide_eq_true_eq, if_pos hv, mapGet,
          if_pos rfl]
        constructor
        · intro hsv
          refine ⟨hsv, ?_⟩
          cases hsv
          omega
        · exact fun hx => hx.1
      · obtain ⟨k, v⟩ := kv
        simp only at hk hv
        simp only [evictStale, List.filter_cons, decide_eq_true_eq, if_pos hv, mapGet,
          if_neg hk]
        exact ih hnd.2
    · by_cases hk : kv.1 = sid
      · obtain ⟨k, v⟩ := kv
        simp only at hk hv
        subst hk
        simp only [evictStale, List.filter_cons, decide_eq_true_eq, if_neg hv, mapGet,
          if_pos rfl]
        have hnone : mapGet (evictStale now rest) k = none := by
          apply mapGet_eq_none_of_not_mem_keys
          intro hmem
          exact hnd.1 (keys_evictStale_subset now rest hmem)
        rw [show (rest.filter fun kv => decide (now - kv.2.lastUpdate ≤ 60000))
              = evictStale now rest from rfl, hnone]
        constructor
        · intro hx
          cases hx
        · rintro ⟨hsv, hle⟩
          cases hsv
          omega
      · obtain ⟨k, v⟩ := kv
        simp only at hk hv
        simp only [evictStale, List.filter_cons, decide_eq_true_eq, if_neg hv, mapGet,
          if_neg hk]
        exact ih hnd.2

/-- A concrete registry at `now = 100000`: session `A` is 61 s stale,
`B` is 10 s stale, `C` sits exactly at the 60 s TTL boundary. -/
def demoReg : Registry :=
  [("A", ⟨"A", "Track", "race", [], 39000⟩),
   ("B", ⟨"B", "Track", "race", [], 90000⟩),
   ("C", ⟨"C", "Track", "race", [], 40000⟩)]

/-- Witness for CLAIM C5: after the sweep at `now = 100000`, `A`
(61 s stale) is gone while `B` (10 s) and boundary session `C` (exactly
60 s) survive. -/
theorem evictStale_exact_witness :
    mapGet (evictStale 100000 demoReg) "A" = none
    ∧ mapGet (evictStale 100000 demoReg) "B" = some ⟨"B", "Track", "race", [], 90000⟩
    ∧ mapGet (evictStale 100000 demoReg) "C" = some ⟨"C", "Track", "race", [], 40000⟩ := by
  refine ⟨rfl, ?_, ?_⟩
  · exact (evictStale_exact 100000 demoReg "B" ⟨"B", "Track", "race", [], 90000⟩
      (by decide)).mpr ⟨rfl, by decide⟩
  · exact (evictStale_exact 100000 demoReg "C" ⟨"C", "Track", "race", [], 40000⟩
      (by decide)).mpr ⟨rfl, by decide⟩

/-- `Map.set` with the same key and value twice equals setting it
once. -/
theorem mapSet_idem {α : Type} (m : List (String × α)) (k : String) (v : α) :
    mapSet (mapSet m k v) k v = mapSet m k v := by
  induction m with
  | nil => simp [mapSet]
  | cons kv rest ih =>
    by_cases hk : kv.1 = k
    · simp [mapSet, hk]
    · simp [mapSet, hk, ih]

/-- CLAIM C7 (amended). The `session_metadata` handler creates or
replaces the WHOLE session entry — including resetting the driver map to
empty — and stamps `lastUpdate`; repeating it with identical metadata is
idempotent on the registry, leaving the session with an empty (not a
preserved) driver map. -/
theorem upsertMetadata_replaces_entry (now : Int) (sid tn st : String) (reg : Registry) :
    upsertMetadata now sid tn st (upsertMetadata now sid tn st reg)
      = upsertMetadata now sid tn st reg
    ∧ mapGet (upsertMetadata now sid tn st reg) sid = some ⟨sid, tn, st, [], now⟩ :=
  ⟨mapSet_idem reg sid _, mapGet_mapSet_self reg sid _⟩

/-- A telemetry driver used in concrete registry scenarios. -/
def demoDriver : TelemetryDriver :=
  ⟨"D1", "Alice", "7", some 1, some 0, 0, none, none, none, none, none⟩

/-- Registry after one telemetry frame for `S1` naming driver `D1`. -/
def regWithDriver : Registry :=
  (applyTelemetry 1000 "S1" (some [demoDriver]) []).1

/-- `regWithDriver` after two identical `session_metadata` events. -/
def regMetaTwice : Registry :=
  upsertMetadata 2000 "S1" "Monza" "race"
    (upsertMetadata 2000 "S1" "Monza" "race" regWithDriver)

/-- Counterexample to CLAIM C7 as stated: calling the `session_metadata`
handler (twice, with identical metadata) on a session that already has a
driver does NOT leave the driver map untouched — the handler replaces the
entry with a fresh empty `drivers` map. -/
theorem upsertMetadata_wipes_drivers_counterexample :
    (mapGet regWithDriver "S1").map SessionEntry.drivers
      = some [("D1", storeDriver demoDriver)]
    ∧ (mapGet regMetaTwice "S1").map SessionEntry.drivers = some []
    ∧ (mapGet regMetaTwice "S1").map SessionEntry.drivers
        ≠ (mapGet regWithDriver "S1").map SessionEntry.drivers := by
  refine ⟨rfl, rfl, ?_⟩
  decide

end ControlBox

namespace ControlBox

/-- Writing one telemetry frame's drivers into a driver map: the
resulting keys are the frame's driver ids together with the keys already
present. -/
theorem keys_foldlSet_toFinset (ds : List TelemetryDriver)
    (m : List (String × StoredDriver)) :
    ((ds.foldl (fun m d => mapSet m d.driverId (storeDriver d)) m).map
        Prod.fst).toFinset
      = (ds.map TelemetryDriver.driverId).toFinset ∪ (m.map Prod.fst).toFinset := by
  induction ds generalizing m with
  | nil => simp
  | cons d rest ih =>
    simp only [List.foldl_cons, List.map_cons, List.toFinset_cons]
    rw [ih, keys_mapSet_toFinset, Finset.union_insert, Finset.insert_union]

/-- Writing a frame's drivers preserves uniqueness of the driver-map
keys. -/
theorem nodup_keys_foldlSet (ds : List TelemetryDriver)
    (m : List (String × StoredDriver))
    (h : (m.map Prod.fst).Nodup) :
    ((ds.foldl (fun m d => mapSet m d.driverId (storeDriver d)) m).map
        Prod.fst).Nodup := by
  induction ds generalizing m with
  | nil => exact h
  | cons d rest ih =>
    simp only [List.foldl_cons]
    exact ih _ (nodup_keys_mapSet _ _ _ h)

/-- Writing a frame's drivers into an empty map yields one entry per
distinct driver id of the frame. -/
theorem length_foldlSet_distinct (ds : List TelemetryDriver) :
    (ds.foldl (fun m d => mapSet m d.driverId (storeDriver d)) []).length
      = (ds.map TelemetryDriver.driverId).toFinset.card := by
  have hn : ((ds.foldl (fun m d => mapSet m d.driverId (storeDriver d)) []).map
      Prod.fst).Nodup := nodup_keys_foldlSet ds [] (by simp)
  have hk := keys_foldlSet_toFinset ds []
  simp only [List.map_nil, List.toFinset_nil, Finset.union_empty] at hk
  calc (ds.foldl (fun m d => mapSet m d.driverId (storeDriver d)) []).length
      = ((ds.foldl (fun m d => mapSet m d.driverId (storeDriver d)) []).map
          Prod.fst).length := (List.length_map _ _).symm
    _ = ((ds.foldl (fun m d => mapSet m d.driverId (storeDriver d)) []).map
          Prod.fst).toFinset.card := (List.toFinset_card_of_nodup hn).symm
    _ = (ds.map TelemetryDriver.driverId).toFinset.card := by rw [hk]

/-- A driver id is present in the map built from a frame exactly when
the frame names it. -/
theorem mapGet_foldlSet_isSome (ds : List TelemetryDriver) (id : String) :
    (mapGet (ds.foldl (fun m d => mapSet m d.driverId (storeDriver d)) []) id).isSome
      ↔ id ∈ ds.map TelemetryDriver.driverId := by
  rw [mapGet_isSome_iff_mem_keys, ← List.mem_toFinset, keys_foldlSet_toFinset]
  simp

end ControlBox

namespace ControlBox

/-- CLAIM C6. A telemetry frame for an unseen session never fails: the
session is auto-created with placeholder metadata
(`trackName = "Unknown Track"`, `sessionType = "race"`), the frame's
drivers are stored, and `getActiveSessions` then lists the session with
the placeholder metadata and a driver count equal to the number of
distinct driver ids in the frame. -/
theorem applyTelemetry_autocreate
    (now : Int) (sid : String) (ds : List TelemetryDriver) (reg : Registry)
    (h : mapGet reg sid = none) :
    ∃ e : SessionEntry,
      mapGet (applyTelemetry now sid (some ds) reg).1 sid = some e
      ∧ e.trackName = "Unknown Track"
      ∧ e.sessionType = "race"
      ∧ (∀ id, (mapGet e.drivers id).isSome ↔ id ∈ ds.map TelemetryDriver.driverId)
      ∧ ({ sessionId := sid, trackName := "Unknown Track", sessionType := "race",
           driverCount := (ds.map TelemetryDriver.driverId).toFinset.card,
           lastUpdate := now } : SessionSummary)
          ∈ getActiveSessions (applyTelemetry now sid (some ds) reg).1 := by
  have hres : (applyTelemetry now sid (some ds) reg).1
      = mapSet (mapSet reg sid ⟨sid, "Unknown Track", "race", [], now⟩) sid
          ⟨sid, "Unknown Track", "race",
            ds.foldl (fun m d => mapSet m d.driverId (storeDriver d)) [], now⟩ := by
    simp [applyTelemetry, h, mapGet_mapSet_self]
  refine ⟨⟨sid, "Unknown Track", "race",
      ds.foldl (fun m d => mapSet m d.driverId (storeDriver d)) [], now⟩,
    ?_, rfl, rfl, ?_, ?_⟩
  · rw [hres]
    exact mapGet_mapSet_self _ _ _
  · intro id
    exact mapGet_foldlSet_isSome ds id
  · rw [hres]
    refine List.mem_map.mpr
      ⟨(sid, ⟨sid, "Unknown Track", "race",
          ds.foldl (fun m d => mapSet m d.driverId (storeDriver d)) [], now⟩),
        mem_mapSet_self _ _ _, ?_⟩
    simp [length_foldlSet_distinct]

/-- The concrete session entry produced by one telemetry frame for an
unseen session. -/
def demoEntry : SessionEntry :=
  ⟨"S1", "Unknown Track", "race", [("D1", storeDriver demoDriver)], 1000⟩

/-- Witness for CLAIM C6: a frame for unseen session `S1` with driver
`D1` auto-creates the placeholder session, stores the driver and lists
it with the distinct-driver count. -/
theorem applyTelemetry_autocreate_witness :
    mapGet (applyTelemetry 1000 "S1" (some [demoDriver]) []).1 "S1" = some demoEntry
    ∧ demoEntry.trackName = "Unknown Track"
    ∧ demoEntry.sessionType = "race"
    ∧ (mapGet demoEntry.drivers "D1").isSome
    ∧ ({ sessionId := "S1", trackName := "Unknown Track", sessionType := "race",
         driverCount := ([demoDriver].map TelemetryDriver.driverId).toFinset.card,
         lastUpdate := 1000 } : SessionSummary)
        ∈ getActiveSessions (applyTelemetry 1000 "S1" (some [demoDriver]) []).1 := by
  obtain ⟨e, h1, h2, h3, h4, h5⟩ :=
    applyTelemetry_autocreate 1000 "S1" [demoDriver] [] rfl
  have h0 : mapGet (applyTelemetry 1000 "S1" (some [demoDriver]) []).1 "S1"
      = some demoEntry := rfl
  rw [h0] at h1
  have he : e = demoEntry := (Option.some_inj.mp h1).symm
  subst he
  exact ⟨h0, rfl, rfl, (h4 "D1").mpr (by simp [demoDriver]), h5⟩

end ControlBox

namespace ControlBox

/-! ## The projected timing view (C9) -/

theorem timingAux_length (ds : List TelemetryDriver) (i : Nat) :
    (timingAux i ds).length = ds.length := by
  induction ds generalizing i with
  | nil => rfl
  | cons d rest ih => simp [timingAux, ih]

theorem timingAux_map_driverId (ds : List TelemetryDriver) (i : Nat) :
    (timingAux i ds).map TimingEntry.driverId = ds.map TelemetryDriver.driverId := by
  induction ds generalizing i with
  | nil => rfl
  | cons d rest ih => simp [timingAux, mkTimingEntry, ih]

theorem timingAux_get (ds : List TelemetryDriver) (i j : Nat)
    (h : j < ds.length) (h2 : j < (timingAux i ds).length) :
    (timingAux i ds).get ⟨j, h2⟩ = mkTimingEntry (i + j) (ds.get ⟨j, h⟩) := by
  induction ds generalizing i j with
  | nil => exact absurd h (by simp)
  | cons d rest ih =>
    cases j with
    | zero => simp [timingAux]
    | succ j =>
      have hr : j < rest.length := Nat.lt_of_succ_lt_succ h
      have hr2 : j < (timingAux (i + 1) rest).length := by
        rw [timingAux_length]
        exact hr
      have hstep : (timingAux i (d :: rest)).get ⟨j + 1, h2⟩
          = (timingAux (i + 1) rest).get ⟨j, hr2⟩ := rfl
      have hstep2 : ((d :: rest).get ⟨j + 1, h⟩) = rest.get ⟨j, hr⟩ := rfl
      rw [hstep, hstep2, ih (i + 1) j hr hr2,
        show i + 1 + j = i + (j + 1) from by omega]

end ControlBox

namespace ControlBox

/-- CLAIM C9 (amended). The projected timing view broadcast by the
telemetry handler is ALWAYS in the frame's input order — the handler
performs no sort. Each entry carries the matching input driver's id, and
its `position` field is that driver's `position` value when present and
the 1-based input index otherwise. -/
theorem timingEntries_input_order (ds : List TelemetryDriver) :
    (timingEntries (some ds)).map TimingEntry.driverId
      = ds.map TelemetryDriver.driverId
    ∧ ∀ j (h : j < ds.length) (h2 : j < (timingEntries (some ds)).length),
        ((timingEntries (some ds)).get ⟨j, h2⟩).driverId = (ds.get ⟨j, h⟩).driverId
        ∧ ((timingEntries (some ds)).get ⟨j, h2⟩).position
            = ((ds.get ⟨j, h⟩).position.getD ((j : Int) + 1)) := by
  constructor
  · exact timingAux_map_driverId ds 0
  · intro j h h2
    have hg : (timingEntries (some ds)).get ⟨j, h2⟩
        = mkTimingEntry (0 + j) (ds.get ⟨j, h⟩) := timingAux_get ds 0 j h h2
    rw [hg, Nat.zero_add]
    exact ⟨rfl, rfl⟩

/-- Frame driver `A` reported in position 2. -/
def tdA : TelemetryDriver :=
  ⟨"A", "Ann", "1", some 2, none, 0, none, none, none, none, none⟩

/-- Frame driver `B` reported in position 1, listed after `A`. -/
def tdB : TelemetryDriver :=
  ⟨"B", "Bob", "2", some 1, none, 0, none, none, none, none, none⟩

/-- Counterexample to CLAIM C9 as stated: a frame listing driver `A`
(position 2) before driver `B` (position 1) is broadcast in input order
`[2, 1]`, not ordered by the position field. -/
theorem timingEntries_not_sorted_counterexample :
    (timingEntries (some [tdA, tdB])).map TimingEntry.position = [2, 1]
    ∧ ¬ List.Sorted (· ≤ ·)
        ((timingEntries (some [tdA, tdB])).map TimingEntry.position) := by
  refine ⟨rfl, ?_⟩
  intro hs
  have h12 : (2 : Int) ≤ 1 := by
    have := hs
    rw [show (timingEntries (some [tdA, tdB])).map TimingEntry.position
        = [2, 1] from rfl] at this
    exact List.rel_of_sorted_cons this 1 (by simp)
  omega

/-- Witness for CLAIM C9 (amended) on the two-driver frame: ids keep
input order, and entry 0 takes driver `A`'s reported position 2. -/
theorem timingEntries_input_order_witness :
    (timingEntries (some [tdA, tdB])).map TimingEntry.driverId
      = [tdA, tdB].map TelemetryDriver.driverId
    ∧ ((timingEntries (some [tdA, tdB])).get ⟨0, by decide⟩).position
        = (([tdA, tdB].get ⟨0, by decide⟩).position.getD 1) := by
  refine ⟨(timingEntries_input_order [tdA, tdB]).1, ?_⟩
  exact ((timingEntries_input_order [tdA, tdB]).2 0 (by decide) (by decide)).2

end ControlBox
